import Mathlib

/-!
Shallow embedding of `tensorpack/dataflow/imgaug/base.py`.

The module defines `ImageAugmentor` (parameter resolution via duck-typed
hooks, a legacy-to-transform bridge, a default textual representation),
`AugmentorList` (sequential composition) and `PhotometricAugmentor`.
Collaborators living outside this file in the original repository
(`transform.py`, `dataflow/image.py`, `utils/utils.py`) are modelled from
the specification where noted.
-/

set_option autoImplicit false

namespace Imgaug

/-- An image value.  `ndim` is the number of axes and `dtypeOk` records
whether the element type passes the external dtype check; `data` stands for
the pixel contents. -/
structure Image where
  ndim : Nat
  dtypeOk : Bool
  data : Int
deriving Repr, DecidableEq

/-- A coordinate set, as passed to the coordinate-application hooks. -/
abbrev Coords := List (Int × Int)

/-- Modelled from the spec: the external `Transform` abstraction
(`transform.py`, not in src/) exposes an apply-to-image and an
apply-to-coordinates operation. -/
structure Transform where
  apply_image : Image → Image
  apply_coords : Coords → Coords

/-- A Python value that a parameter-sampling hook may return: `None`, a
plain parameter payload, or (for some old augmentors) a `Transform`
instance directly. -/
inductive PVal where
  | pnone : PVal
  | plain : Int → PVal
  | ptfm : Transform → PVal

/-- Whether a parameter value is a `Transform` instance
(`isinstance(p, Transform)` in the source). -/
def PVal.isTfm : PVal → Bool
  | .ptfm _ => true
  | _ => false

/-- An `ImageAugmentor` subclass, described by which optional duck-typed
hooks it defines.  `none` in an `Option` field means the subclass does not
define that method (attribute lookup raises `AttributeError`).
`augment_coords` models a subclass override of the public legacy
coordinate hook; when it is `none`, the base-class implementation
`param.apply_coords(coords)` applies. -/
structure ImageAugmentor where
  _get_augment_params : Option (Image → PVal)
  get_augment_params : Option (Image → PVal)
  _augment : Image → PVal → Image
  _augment_coords : Option (Coords → PVal → Coords)
  augment_coords : Option (Coords → PVal → Coords)

/-- Parameter resolution in `ImageAugmentor.get_transform` (lines 130-138
of base.py): start from `None`, attempt `self._get_augment_params(img)`,
then attempt `self.get_augment_params(img)`; each *successful* attempt
overwrites the value, and a missing attribute (`AttributeError`) leaves it
unchanged. -/
def resolve_params (a : ImageAugmentor) (img : Image) : PVal :=
  let p : PVal := PVal.pnone
  let p : PVal :=
    match a._get_augment_params with
    | some f => f img
    | none => p
  match a.get_augment_params with
  | some g => g img
  | none => p

/-- The `legacy_augment_coords` closure in `get_transform`: try
`self._augment_coords(coords, p)`, then `self.augment_coords(coords, p)`
(the base-class version calls `p.apply_coords(coords)`, which raises
`AttributeError` when `p` is not a transform), and fall back to returning
`coords` unchanged. -/
def legacy_augment_coords (a : ImageAugmentor) (coords : Coords) (p : PVal) : Coords :=
  match a._augment_coords with
  | some f => f coords p
  | none =>
    match a.augment_coords with
    | some g => g coords p
    | none =>
      match p with
      | .ptfm t => t.apply_coords coords
      | _ => coords

/-- `ImageAugmentor.get_transform`: resolve the parameter; if it is
already a `Transform`, return it as-is; otherwise wrap the legacy
application hooks into a transform built by the external
`TransformFactory` (modelled from the spec: a transform made from the
given image-applying and coordinate-applying closures). -/
def ImageAugmentor.get_transform (a : ImageAugmentor) (img : Image) : Transform :=
  match resolve_params a img with
  | .ptfm t => t
  | p =>
    { apply_image := fun i => a._augment i p
      apply_coords := fun coords => legacy_augment_coords a coords p }

/-- `ImageAugmentor.augment`: get a transform for the image and apply it
to that image. -/
def ImageAugmentor.augment (a : ImageAugmentor) (img : Image) : Image :=
  (a.get_transform img).apply_image img

/-- `ImageAugmentor.augment_return_tfm`: also return the transform. -/
def ImageAugmentor.augment_return_tfm (a : ImageAugmentor) (img : Image) :
    Image × Transform :=
  ((a.get_transform img).apply_image img, a.get_transform img)

/-- Modelled from the spec: the dtype/shape validation utility
(`dataflow/image.py`, not in src/) fails exactly when the image element
type is unsupported; the `Image` model records that verdict in `dtypeOk`. -/
def check_dtype (img : Image) : Bool :=
  img.dtypeOk

/-- Modelled from the spec: the external composite transform kind
(`TransformList` in `transform.py`, not in src/), an ordered aggregate of
per-stage transforms. -/
structure TransformList where
  tfms : List Transform

/-- `AugmentorList`: augment an image by a list of augmentors. -/
structure AugmentorList where
  augmentors : List ImageAugmentor

/-- `AugmentorList.get_transform` unconditionally raises `RuntimeError`. -/
def AugmentorList.get_transform (_l : AugmentorList) (_img : Image) :
    Except String Transform :=
  Except.error "Cannot simply get transform of a AugmentorList without running the augmentation!"

/-- One step of the loop in `AugmentorList.augment_return_tfm`: get the
stage transform against the current image, apply it, and append it. -/
def augStep (acc : Image × List Transform) (a : ImageAugmentor) :
    Image × List Transform :=
  let t := a.get_transform acc.1
  (t.apply_image acc.1, acc.2 ++ [t])

/-- `AugmentorList.augment_return_tfm`: check the dtype, check the image
has 2 or 3 axes, then run every augmentor in order over the live
intermediate images, collecting the transforms into a `TransformList`. -/
def AugmentorList.augment_return_tfm (l : AugmentorList) (img : Image) :
    Except String (Image × TransformList) :=
  if ¬ check_dtype img then
    Except.error "unsupported dtype"
  else if ¬ (img.ndim = 2 ∨ img.ndim = 3) then
    Except.error "ndim not in [2, 3]"
  else
    let r := l.augmentors.foldl augStep (img, [])
    Except.ok (r.1, ⟨r.2⟩)

/-- `AugmentorList.augment`: first component of `augment_return_tfm`. -/
def AugmentorList.augment (l : AugmentorList) (img : Image) :
    Except String Image :=
  (l.augment_return_tfm img).map Prod.fst

/-- Spec-side definition for the refinement claim C3, following the
spec's words: manually apply each contained augmentor's `augment` in
order, each stage consuming the previous stage's output image. -/
def manualSeqAugment (augs : List ImageAugmentor) (img : Image) : Image :=
  augs.foldl (fun i a => a.augment i) img

/-- Spec-side definition for the refinement claim C3: the per-stage
transforms, in order, where stage k's transform is obtained against the
image produced by the first k stages. -/
def manualStageTfms : List ImageAugmentor → Image → List Transform
  | [], _ => []
  | a :: rest, img => a.get_transform img :: manualStageTfms rest (a.augment img)

/-- A `PhotometricAugmentor` subclass: `_get_params` defaults to the
base-class implementation returning `None`; `_impl` is the
subclass-defined pixel function. -/
structure PhotometricAugmentor where
  _get_params : Image → PVal := fun _ => PVal.pnone
  _impl : Image → PVal → Image

/-- Modelled from the spec: the external `PhotometricTransform`
(`transform.py`, not in src/) applies the given function to images and is
identity on coordinates. -/
def PhotometricTransform (func : Image → Image) : Transform :=
  { apply_image := func
    apply_coords := fun coords => coords }

/-- `PhotometricAugmentor.get_transform`: resolve parameters with
`_get_params` and wrap `_impl` with them into a `PhotometricTransform`. -/
def PhotometricAugmentor.get_transform (a : PhotometricAugmentor) (img : Image) :
    Transform :=
  PhotometricTransform (fun i => a._impl i (a._get_params img))

/-!
RNG lifecycle model.  `reset_state` rebinds `self.rng`; `__init__` calls
`reset_state()` at construction.  `AugmentorList.reset_state` calls the
base `reset_state` (its own RNG) and then each contained augmentor's
`reset_state` in sequence order.
-/

/-- A fresh RNG handle, as produced by the external seeding utility. -/
structure RNGHandle where
  seed : Nat
deriving Repr, DecidableEq

/-- Modelled from the spec: the RNG construction utility `get_rng`
(`utils/utils.py`, not in src/) derives a fresh RNG handle from the
augmentor instance. -/
def get_rng (instId : Nat) : RNGHandle :=
  ⟨instId⟩

/-- The RNG-related state of one augmentor instance: its identity (used
for seed derivation) and its `rng` attribute, absent until first set. -/
structure AugState where
  instId : Nat
  rng : Option RNGHandle
deriving Repr, DecidableEq

/-- `ImageAugmentor.reset_state`: rebind `self.rng` to a fresh RNG. -/
def AugState.reset_state (s : AugState) : AugState :=
  { s with rng := some (get_rng s.instId) }

/-- `ImageAugmentor.__init__`: calls `self.reset_state()` (the fork-hook
registration has no effect on single-process state). -/
def AugState.init (instId : Nat) : AugState :=
  AugState.reset_state ⟨instId, none⟩

/-- The request `_rand_range` submits to the owned RNG: which handle is
drawn from, the resolved low and high bounds, and the resolved shape
(`[]` means a scalar draw). -/
structure DrawCall where
  rng : RNGHandle
  low : ℚ
  high : ℚ
  size : List Nat
deriving Repr, DecidableEq

/-- `ImageAugmentor._rand_range(low=1.0, high=None, size=None)`: when
`high` is `None` the range becomes `(0, low)`; when `size` is `None` it
becomes `[]`; then `self.rng.uniform(low, high, size)` is called, which
fails with `AttributeError` exactly when `self.rng` was never bound. -/
def AugState._rand_range (s : AugState) (low : Option ℚ) (high : Option ℚ)
    (size : Option (List Nat)) : Except String DrawCall :=
  let low0 : ℚ := low.getD 1
  let lohi : ℚ × ℚ :=
    match high with
    | none => (0, low0)
    | some h => (low0, h)
  let sz : List Nat := size.getD []
  match s.rng with
  | none => Except.error "AttributeError: rng is not set"
  | some r => Except.ok ⟨r, lohi.1, lohi.2, sz⟩

/-- An augmentor seen only through its reset behaviour: a plain
`ImageAugmentor` (one RNG of its own) or an `AugmentorList` (one RNG of
its own plus the contained augmentors, in construction order). -/
inductive AugNode where
  | base : Nat → AugNode
  | list : Nat → List AugNode → AugNode

mutual

/-- The sequence of RNG resets performed by `reset_state`, each event
being the identity of the instance whose `rng` is rebound.  A plain
augmentor rebinds its own RNG; an `AugmentorList` first calls the base
`reset_state` (its own RNG) and then resets each contained augmentor in
order. -/
def resetTrace : AugNode → List Nat
  | .base i => [i]
  | .list i cs => i :: resetTraceAll cs

/-- The reset events of a list of augmentors, run in order. -/
def resetTraceAll : List AugNode → List Nat
  | [] => []
  | c :: cs => resetTrace c ++ resetTraceAll cs

end

/-!
Default textual representation (`ImageAugmentor.__repr__`): introspect the
constructor signature, map each parameter to the attribute of the same
name, omit fields identical (by object identity) to the default, and on
any assertion failure log a warning once and fall back to the generic
object representation.
-/

/-- A Python attribute value as used by the representation logic. -/
inductive PyVal where
  | pint : Int → PyVal
  | pbool : Bool → PyVal
  | pnone : PyVal
deriving Repr, DecidableEq

/-- `pprint.pformat` on the modelled values. -/
def pformat : PyVal → String
  | .pint n => toString n
  | .pbool b => if b then "True" else "False"
  | .pnone => "None"

/-- CPython object identity (`is`) on the modelled values: `True`,
`False` and `None` are interned singletons, and ints in the small-int
cache (-5 to 256) are interned, so identity coincides with equality
there; other pairs are conservatively distinct objects. -/
def pyIs : PyVal → PyVal → Bool
  | .pbool a, .pbool b => a == b
  | .pnone, .pnone => true
  | .pint a, .pint b => a == b && (-5 ≤ a && a ≤ 256)
  | _, _ => false

/-- The constructor signature as returned by `inspect.getargspec`:
argument names after `self`, trailing default values, and whether the
signature has variadic or keyword-variadic parameters. -/
structure CtorSig where
  args : List String
  defaults : List PyVal
  varargs : Bool
  keywords : Bool

/-- Outcome of `__repr__`: either the rendered string, or (after a
one-time warning with the given message, via the external `log_once`) the
generic `object.__repr__` fallback. -/
inductive ReprOut where
  | ok : String → ReprOut
  | generic : String → ReprOut
deriving Repr, DecidableEq

/-- The field loop of `__repr__`: for each constructor parameter in
order, assert the instance has a matching attribute (first failure
aborts), skip the field when it has a default and the attribute is
identical to it, and otherwise render `name=pformat(value)`. -/
def reprFields (classname : String) (defaults : List PyVal) (ifhd : Nat)
    (attrs : List (String × PyVal)) : Nat → List String → Except String (List String)
  | _, [] => Except.ok []
  | idx, f :: fs =>
    match attrs.lookup f with
    | none =>
      Except.error ("Attribute " ++ f ++ " in " ++ classname ++
        " not found! Default __repr__ only works if attributes match the constructor.")
    | some attr =>
      match reprFields classname defaults ifhd attrs (idx + 1) fs with
      | Except.error e => Except.error e
      | Except.ok rest =>
        if ifhd ≤ idx ∧ (match defaults[idx - ifhd]? with
                         | some d => pyIs attr d
                         | none => false) = true then
          Except.ok rest
        else
          Except.ok ((f ++ "=" ++ pformat attr) :: rest)

/-- `ImageAugmentor.__repr__`: reject variadic and keyword-variadic
constructors, run the field loop, and render
`imgaug.ClassName(field=value, ...)`; any assertion failure becomes a
one-time warning plus the generic fallback.  (The source message for
variadics uses a contraction; it is paraphrased here.) -/
def default_repr (classname : String) (sig : CtorSig)
    (attrs : List (String × PyVal)) : ReprOut :=
  if sig.varargs then
    ReprOut.generic "The default __repr__ does not work for varargs!"
  else if sig.keywords then
    ReprOut.generic "The default __repr__ does not work for kwargs!"
  else
    match reprFields classname sig.defaults (sig.args.length - sig.defaults.length)
        attrs 0 sig.args with
    | Except.error e => ReprOut.generic e
    | Except.ok argstr =>
      ReprOut.ok ("imgaug." ++ classname ++ "(" ++ String.intercalate ", " argstr ++ ")")

/-!
Concrete fixtures used by counterexamples and witnesses.
-/

/-- A sample transform: shifts the pixel data and prepends a marker
coordinate. -/
def tfmShift : Transform :=
  { apply_image := fun i => { i with data := i.data + 100 }
    apply_coords := fun c => (0, 0) :: c }

/-- A sample 2-axis image with a supported dtype. -/
def img0 : Image := ⟨2, true, 5⟩

/-- An augmentor defining both parameter-sampling hooks, returning
different parameters. -/
def augBoth : ImageAugmentor :=
  { _get_augment_params := some (fun _ => PVal.plain 1)
    get_augment_params := some (fun _ => PVal.plain 2)
    _augment := fun i _ => i
    _augment_coords := none
    augment_coords := none }

/-- A legacy augmentor: only the private parameter-sampling hook and the
per-image apply hook are defined. -/
def augPrivOnly : ImageAugmentor :=
  { _get_augment_params := some (fun i => PVal.plain i.data)
    get_augment_params := none
    _augment := fun i p =>
      match p with
      | PVal.plain v => { i with data := i.data + v }
      | _ => i
    _augment_coords := none
    augment_coords := none }

/-- An augmentor defining no optional hooks at all. -/
def augNoHooks : ImageAugmentor :=
  { _get_augment_params := none
    get_augment_params := none
    _augment := fun i _ => i
    _augment_coords := none
    augment_coords := none }

/-- An old-style augmentor whose parameter hook returns a `Transform`
directly. -/
def augRetTfm : ImageAugmentor :=
  { _get_augment_params := some (fun _ => PVal.ptfm tfmShift)
    get_augment_params := none
    _augment := fun i _ => i
    _augment_coords := none
    augment_coords := none }

/-!
Claims.
-/

/-- C1, counterexample: on an augmentor defining both parameter-sampling
hooks, the private hook returns `plain 1` but the resolved parameter is
the public hook's `plain 2` — the hook attempted second overwrites the
first, so the first responding hook does not determine the result. -/
theorem C1_counterexample :
    (∃ f, augBoth._get_augment_params = some f ∧ f img0 = PVal.plain 1) ∧
    resolve_params augBoth img0 = PVal.plain 2 ∧
    PVal.plain 2 ≠ PVal.plain 1 := by
  refine ⟨⟨fun _ => PVal.plain 1, rfl, rfl⟩, rfl, ?_⟩
  intro h
  injection h with h2
  exact absurd h2 (by decide)

/-- C1 (amended): `get_transform` attempts the private hook first and the
public legacy hook second, each successful attempt overwriting the
resolved parameter, so when both hooks are defined the public (last
responding) hook determines the result; with only the private hook it
determines the result, and with neither the parameter is `None`. -/
theorem C1_param_resolution (a : ImageAugmentor) (img : Image) :
    (a._get_augment_params = none → a.get_augment_params = none →
      resolve_params a img = PVal.pnone) ∧
    (∀ f, a._get_augment_params = some f → a.get_augment_params = none →
      resolve_params a img = f img) ∧
    (∀ g, a.get_augment_params = some g → resolve_params a img = g img) := by
  unfold resolve_params
  refine ⟨?_, ?_, ?_⟩ <;> intros <;> simp_all

/-- Witness for C1: all three resolution cases at concrete augmentors. -/
theorem C1_witness :
    resolve_params augNoHooks img0 = PVal.pnone ∧
    resolve_params augPrivOnly img0 = PVal.plain 5 ∧
    resolve_params augBoth img0 = PVal.plain 2 :=
  ⟨(C1_param_resolution augNoHooks img0).1 rfl rfl,
   (C1_param_resolution augPrivOnly img0).2.1 (fun i => PVal.plain i.data) rfl rfl,
   (C1_param_resolution augBoth img0).2.2 (fun _ => PVal.plain 2) rfl⟩

/-- C2: for an augmentor with only the legacy hooks (private sampling
hook plus `_augment`), `augment(image)` equals
`_augment(image, params(image))`. -/
theorem C2_legacy_augment (a : ImageAugmentor) (img : Image) (f : Image → PVal)
    (hpriv : a._get_augment_params = some f) (hpub : a.get_augment_params = none)
    (hp : (f img).isTfm = false) :
    a.augment img = a._augment img (f img) := by
  have hres : resolve_params a img = f img := by
    unfold resolve_params
    rw [hpriv, hpub]
  unfold ImageAugmentor.augment ImageAugmentor.get_transform
  rw [hres]
  cases h : f img with
  | pnone => rfl
  | plain v => rfl
  | ptfm t => rw [h] at hp; simp [PVal.isTfm] at hp

/-- Witness for C2: the legacy augmentor adds the sampled parameter
(the image datum 5) to the pixel data. -/
theorem C2_witness :
    augPrivOnly.augment img0 = Image.mk 2 true 10 :=
  C2_legacy_augment augPrivOnly img0 (fun i => PVal.plain i.data) rfl rfl rfl

/-- C4: `get_transform` returns a resolved parameter that is already a
transform as-is; otherwise it wraps `_augment` into a transform whose
image application uses the resolved parameter and whose coordinate
application is identity when no legacy coordinate hook exists. -/
theorem C4_get_transform (a : ImageAugmentor) (img : Image) :
    (∀ t, resolve_params a img = PVal.ptfm t → a.get_transform img = t) ∧
    ((resolve_params a img).isTfm = false →
      (∀ i, (a.get_transform img).apply_image i = a._augment i (resolve_params a img)) ∧
      (a._augment_coords = none → a.augment_coords = none →
        ∀ coords, (a.get_transform img).apply_coords coords = coords)) := by
  constructor
  · intro t ht
    unfold ImageAugmentor.get_transform
    rw [ht]
  · intro hp
    cases hres : resolve_params a img with
    | ptfm t => rw [hres] at hp; simp [PVal.isTfm] at hp
    | pnone =>
      refine ⟨fun i => ?_, fun h1 h2 coords => ?_⟩
      · unfold ImageAugmentor.get_transform
        rw [hres]
      · unfold ImageAugmentor.get_transform
        rw [hres]
        simp [legacy_augment_coords, h1, h2]
    | plain v =>
      refine ⟨fun i => ?_, fun h1 h2 coords => ?_⟩
      · unfold ImageAugmentor.get_transform
        rw [hres]
      · unfold ImageAugmentor.get_transform
        rw [hres]
        simp [legacy_augment_coords, h1, h2]

/-- Witness for C4: a transform-returning hook is passed through, and a
hookless augmentor yields identity coordinate application. -/
theorem C4_witness :
    augRetTfm.get_transform img0 = tfmShift ∧
    (augNoHooks.get_transform img0).apply_image img0 =
      augNoHooks._augment img0 PVal.pnone ∧
    (augNoHooks.get_transform img0).apply_coords [(1, 2)] = [(1, 2)] :=
  ⟨(C4_get_transform augRetTfm img0).1 tfmShift rfl,
   ((C4_get_transform augNoHooks img0).2 rfl).1 img0,
   ((C4_get_transform augNoHooks img0).2 rfl).2 rfl rfl [(1, 2)]⟩

/-- C5: calling `get_transform` on an `AugmentorList` raises, for every
list and every image. -/
theorem C5_list_get_transform (l : AugmentorList) (img : Image) :
    l.get_transform img =
      Except.error
        "Cannot simply get transform of a AugmentorList without running the augmentation!" :=
  rfl

/-- C6: a photometric augmentor's transform is identity on coordinates,
applies the subclass pixel function with the resolved parameters on
images, and the default parameter hook returns `None`. -/
theorem C6_photometric (a : PhotometricAugmentor) (img : Image) :
    (∀ coords, (a.get_transform img).apply_coords coords = coords) ∧
    (∀ i, (a.get_transform img).apply_image i = a._impl i (a._get_params img)) ∧
    (∀ f : Image → PVal → Image,
      ({ _impl := f } : PhotometricAugmentor)._get_params img = PVal.pnone) :=
  ⟨fun _ => rfl, fun _ => rfl, fun _ => rfl⟩

/-- The loop of `augment_return_tfm`, started from any accumulator,
computes the manually sequenced image and appends the per-stage
transforms in order. -/
theorem augStep_fold_spec (augs : List ImageAugmentor) (img : Image)
    (acc : List Transform) :
    augs.foldl augStep (img, acc) =
      (manualSeqAugment augs img, acc ++ manualStageTfms augs img) := by
  induction augs generalizing img acc with
  | nil => simp [manualSeqAugment, manualStageTfms]
  | cons a rest ih =>
    simp only [List.foldl_cons]
    have hstep : augStep (img, acc) a =
        (a.augment img, acc ++ [a.get_transform img]) := rfl
    rw [hstep, ih]
    simp [manualSeqAugment, manualStageTfms]

/-- There is one manually collected transform per stage. -/
theorem manualStageTfms_length (augs : List ImageAugmentor) (img : Image) :
    (manualStageTfms augs img).length = augs.length := by
  induction augs generalizing img with
  | nil => rfl
  | cons a rest ih => simp [manualStageTfms, ih]

/-- C3: for a supported image, `AugmentorList.augment_return_tfm`
produces the image obtained by manually applying each contained
augmentor's `augment` in order, together with the n per-stage transforms
in that order. -/
theorem C3_list_refinement (l : AugmentorList) (img : Image)
    (hdtype : check_dtype img = true) (hndim : img.ndim = 2 ∨ img.ndim = 3) :
    l.augment_return_tfm img =
      Except.ok (manualSeqAugment l.augmentors img,
        ⟨manualStageTfms l.augmentors img⟩) ∧
    (manualStageTfms l.augmentors img).length = l.augmentors.length := by
  refine ⟨?_, manualStageTfms_length l.augmentors img⟩
  have h1 : ¬ (¬ check_dtype img = true) := by simp [hdtype]
  have h2 : ¬ (¬ (img.ndim = 2 ∨ img.ndim = 3)) := fun h => h hndim
  unfold AugmentorList.augment_return_tfm
  rw [if_neg h1, if_neg h2, augStep_fold_spec]
  simp

/-- Witness for C3: a two-stage list over a supported 2-axis image. -/
theorem C3_witness :
    (AugmentorList.mk [augPrivOnly, augNoHooks]).augment_return_tfm img0 =
      Except.ok (manualSeqAugment [augPrivOnly, augNoHooks] img0,
        ⟨manualStageTfms [augPrivOnly, augNoHooks] img0⟩) ∧
    (manualStageTfms [augPrivOnly, augNoHooks] img0).length = 2 :=
  C3_list_refinement ⟨[augPrivOnly, augNoHooks]⟩ img0 rfl (Or.inl rfl)

/-- The reset events of order-recording stub augmentors are their
identities, in order. -/
theorem resetTraceAll_map_base (ids : List Nat) :
    resetTraceAll (ids.map AugNode.base) = ids := by
  induction ids with
  | nil => rfl
  | cons x xs ih => simp [resetTraceAll, resetTrace, ih]

/-- C7: resetting an `AugmentorList` resets its own RNG first and then
each contained augmentor exactly once, in construction order (stated via
order-recording stub augmentors, and in general via the concatenated
child traces). -/
theorem C7_reset_order (i : Nat) (ids : List Nat) (cs : List AugNode) :
    resetTrace (AugNode.list i (ids.map AugNode.base)) = i :: ids ∧
    resetTrace (AugNode.list i cs) = i :: resetTraceAll cs := by
  constructor
  · rw [resetTrace, resetTraceAll_map_base]
  · rw [resetTrace]

/-- The constructor signature `(self, angle, clip=True)`. -/
def sigAngleClip : CtorSig :=
  ⟨["angle", "clip"], [PyVal.pbool true], false, false⟩

/-- Attributes of an instance with `angle=30`, `clip=True`. -/
def attrsClipTrue : List (String × PyVal) :=
  [("angle", PyVal.pint 30), ("clip", PyVal.pbool true)]

/-- Attributes of an instance with `angle=30`, `clip=False`. -/
def attrsClipFalse : List (String × PyVal) :=
  [("angle", PyVal.pint 30), ("clip", PyVal.pbool false)]

/-- C8, counterexample: with constructor `(self, angle, clip=True)` and
`angle=30`, `clip=True`, the rendered representation is
`imgaug.ClassName(angle=30)` — carrying an `imgaug.` prefix — and not
exactly `ClassName(angle=30)` as claimed. -/
theorem C8_counterexample :
    default_repr "ClassName" sigAngleClip attrsClipTrue =
      ReprOut.ok "imgaug.ClassName(angle=30)" ∧
    "imgaug.ClassName(angle=30)" ≠ "ClassName(angle=30)" := by
  constructor
  · decide
  · decide

/-- C8 (amended): the default representation renders
`imgaug.ClassName(angle=30)` for `angle=30, clip=True` (default-valued
field omitted, identity comparison) and
`imgaug.ClassName(angle=30, clip=False)` for `clip=False`; variadic or
keyword-variadic constructors and missing attributes produce a warning
and the generic fallback instead of a failure. -/
theorem C8_default_repr :
    default_repr "ClassName" sigAngleClip attrsClipTrue =
      ReprOut.ok "imgaug.ClassName(angle=30)" ∧
    default_repr "ClassName" sigAngleClip attrsClipFalse =
      ReprOut.ok "imgaug.ClassName(angle=30, clip=False)" ∧
    (∀ cn sig attrs, sig.varargs = true →
      default_repr cn sig attrs =
        ReprOut.generic "The default __repr__ does not work for varargs!") ∧
    (∀ cn sig attrs, sig.varargs = false → sig.keywords = true →
      default_repr cn sig attrs =
        ReprOut.generic "The default __repr__ does not work for kwargs!") ∧
    (∀ cn sig attrs f, sig.varargs = false → sig.keywords = false →
      sig.args = [f] → attrs.lookup f = none →
      default_repr cn sig attrs =
        ReprOut.generic ("Attribute " ++ f ++ " in " ++ cn ++
          " not found! Default __repr__ only works if attributes match the constructor.")) := by
  refine ⟨by decide, by decide, ?_, ?_, ?_⟩
  · intro cn sig attrs hv
    simp [default_repr, hv]
  · intro cn sig attrs hv hk
    simp [default_repr, hv, hk]
  · intro cn sig attrs f hv hk hargs hlook
    simp [default_repr, hv, hk, hargs, reprFields, hlook]

/-- Witness for C8: the varargs and missing-attribute fallbacks at
concrete signatures. -/
theorem C8_witness :
    default_repr "Foo" ⟨[], [], true, false⟩ [] =
      ReprOut.generic "The default __repr__ does not work for varargs!" ∧
    default_repr "Foo" ⟨["angle"], [], false, false⟩ [] =
      ReprOut.generic
        "Attribute angle in Foo not found! Default __repr__ only works if attributes match the constructor." :=
  ⟨C8_default_repr.2.2.1 "Foo" ⟨[], [], true, false⟩ [] rfl,
   C8_default_repr.2.2.2.2 "Foo" ⟨["angle"], [], false, false⟩ [] "angle" rfl rfl rfl rfl⟩

/-- C9, counterexample: an augmentor constructed but never explicitly
reset already owns an RNG (`__init__` itself calls `reset_state`), and a
draw succeeds instead of failing. -/
theorem C9_counterexample :
    (AugState.init 7).rng = some (get_rng 7) ∧
    (AugState.init 7)._rand_range none none none =
      Except.ok ⟨⟨7⟩, 0, 1, []⟩ :=
  ⟨rfl, rfl⟩

/-- C9 (amended): construction itself initializes the RNG by calling
`reset_state`, so drawing succeeds immediately after construction even
without an explicit reset, and it succeeds after any `reset_state`. -/
theorem C9_reset_contract (n : Nat) (s : AugState) (low high : Option ℚ)
    (size : Option (List Nat)) :
    (∃ d, (AugState.init n)._rand_range low high size = Except.ok d) ∧
    (∃ d, (AugState.reset_state s)._rand_range low high size = Except.ok d) := by
  constructor
  · unfold AugState._rand_range AugState.init AugState.reset_state
    cases high <;> exact ⟨_, rfl⟩
  · unfold AugState._rand_range AugState.reset_state
    cases high <;> exact ⟨_, rfl⟩

/-- C10, counterexample: with the single bound `low=2`, `_rand_range`
resolves the range to `[0, 2)`, not the claimed default `[0, 1)`. -/
theorem C10_counterexample :
    (AugState.init 7)._rand_range (some 2) none none =
      Except.ok ⟨⟨7⟩, 0, 2, []⟩ ∧
    (2 : ℚ) ≠ (1 : ℚ) := by
  constructor
  · rfl
  · norm_num

/-- C10 (amended): `_rand_range` draws from the owned RNG with range
`[0, low)` when only one bound is given (so `[0, 1)` when none is given),
`[low, high)` when both are given, scalar shape when no size is given and
the given shape otherwise; it fails exactly when the RNG was never
initialized. -/
theorem C10_rand_range (s : AugState) (r : RNGHandle) (low high : Option ℚ)
    (size : Option (List Nat)) (hr : s.rng = some r) :
    (high = none →
      s._rand_range low high size = Except.ok ⟨r, 0, low.getD 1, size.getD []⟩) ∧
    (∀ h, high = some h →
      s._rand_range low high size = Except.ok ⟨r, low.getD 1, h, size.getD []⟩) ∧
    (∀ s2 : AugState, s2.rng = none → ∀ lo hi sz,
      s2._rand_range lo hi sz = Except.error "AttributeError: rng is not set") := by
  refine ⟨?_, ?_, ?_⟩
  · intro hh
    unfold AugState._rand_range
    rw [hh, hr]
  · intro h hh
    unfold AugState._rand_range
    rw [hh, hr]
  · intro s2 h2 lo hi sz
    unfold AugState._rand_range
    rw [h2]

/-- Witness for C10: a zero-bound draw resolves to range `[0, 1)` and a
scalar shape; a fully specified draw keeps its bounds and shape; an
uninitialized state fails. -/
theorem C10_witness :
    (AugState.init 7)._rand_range none none none =
      Except.ok ⟨⟨7⟩, 0, 1, []⟩ ∧
    (AugState.init 7)._rand_range (some 3) (some 5) (some [4, 4]) =
      Except.ok ⟨⟨7⟩, 3, 5, [4, 4]⟩ ∧
    (AugState.mk 7 none)._rand_range none none none =
      Except.error "AttributeError: rng is not set" :=
  ⟨(C10_rand_range (AugState.init 7) ⟨7⟩ none none none rfl).1 rfl,
   (C10_rand_range (AugState.init 7) ⟨7⟩ (some 3) (some 5) (some [4, 4]) rfl).2.1 5 rfl,
   (C10_rand_range (AugState.init 7) ⟨7⟩ none none none rfl).2.2 ⟨7, none⟩ rfl none none none⟩

end Imgaug
